import Mathlib

/-!
Shallow embedding of `src/components/analytics/graph-with-loading-state.tsx`.

The file models the four pieces of behaviour in that component:
  * `generateFakeData` (source lines 226-236): the synthetic placeholder
    series generator;
  * the data-selection `useMemo` (source lines 111-120), embedded as
    `selectData`;
  * the loading-timer effect (source lines 99-109), embedded as a small
    state machine (`ComponentState`, `mountState`, `tick`, `cancel`,
    `restart`, `runTicks`);
  * `CustomToolTip` (source lines 251-304), embedded as `customToolTip`;
  * the `startEndOnly` X-axis `ticks` expression (source lines 195-202),
    embedded as `startEndTicks`.

JavaScript `Date` values are modelled as natural numbers (milliseconds since
the epoch); `Math.random()` draws are modelled by an explicit draw function
`rand : Nat → Nat`, the i-th draw standing for `Math.floor(Math.random()*10)`
(reduced mod 10 to keep the model total); numbers are modelled as rationals
since the random factor is fractional.
-/

namespace Dashboard

/-- One sample, source line 65: `type Value = { value: number; timestamp: Date }`. -/
structure Value where
  timestamp : Nat
  value : ℚ
deriving DecidableEq, Repr

/-- The fractional factor `Math.floor(Math.random() * 10) / 10 + 1` of source
line 229, with the i-th raw draw supplied by `rand`. -/
def randVal (rand : Nat → Nat) (i : Nat) : ℚ :=
  ((rand i % 10 : Nat) : ℚ) / 10 + 1

/-- Source lines 226-236.  `generateFakeData(iteration, elements)` pushes, for
each `i < elements`, a sample with the current timestamp and value
`random * (iteration % 2 ? (i % 2 ? 3 : 1) : i % 2 ? 1 : 3)`.  The current
time `now` and the random draws `rand` are the ambient environment of the
call, passed explicitly. -/
def generateFakeData (iteration elements : Nat) (now : Nat)
    (rand : Nat → Nat) : List Value :=
  (List.range elements).map fun i =>
    { timestamp := now
      value := randVal rand i *
        (if iteration % 2 = 1 then (if i % 2 = 1 then 3 else 1)
         else (if i % 2 = 1 then 1 else 3)) }

/-- Source lines 111-120, the `useMemo` computing `data`:
if `query.isLoading || !query.data?.result` return `loadingStateData`,
else copy the first `limit` elements of the result and reverse the copy when
`reverse` is set.  An absent result (`undefined` anywhere along
`query.data?.result`) is `none`. -/
def selectData (isLoading : Bool) (loadingStateData : List Value)
    (result : Option (List Value)) (limit : Nat) (reverse : Bool) :
    List Value :=
  match isLoading, result with
  | true, _ => loadingStateData
  | false, none => loadingStateData
  | false, some real =>
    let copiedData := real.take limit
    if reverse then copiedData.reverse else copiedData

/-- The placeholder-animation state owned by one component instance:
`loadingStateData` is the `useState` of source lines 93-95, `iteration` the
counter of the effect closure (source line 103), `timerActive` whether the
`setInterval` handle of source line 104 is live. -/
structure ComponentState where
  loadingStateData : List Value
  iteration : Nat
  timerActive : Bool
deriving DecidableEq

/-- Mounting the component: `useState(generateFakeData(0, limit))` (source
lines 93-95) and the first run of the effect (source lines 99-109), which
starts the interval exactly when `isLoading` is true. -/
def mountState (isLoading : Bool) (limit : Nat) (now : Nat)
    (rand : Nat → Nat) : ComponentState :=
  { loadingStateData := generateFakeData 0 limit now rand
    iteration := 0
    timerActive := isLoading }

/-- One firing of the interval callback (source lines 104-107):
`setLoadingStateData(generateFakeData(iteration, limit)); iteration++`.
A tick event delivered after `clearInterval` does nothing, which is exactly
the semantics of a cancelled interval. -/
def tick (limit : Nat) (now : Nat) (rand : Nat → Nat)
    (s : ComponentState) : ComponentState :=
  if s.timerActive then
    { loadingStateData := generateFakeData s.iteration limit now rand
      iteration := s.iteration + 1
      timerActive := true }
  else s

/-- The effect cleanup `clearInterval(interval)` (source line 108), run when
`isLoading` flips false or the component unmounts. -/
def cancel (s : ComponentState) : ComponentState :=
  { s with timerActive := false }

/-- The effect re-running because `isLoading` became true again: a fresh
closure with `iteration = 0` and a fresh interval (source lines 99-107). -/
def restart (s : ComponentState) : ComponentState :=
  { s with iteration := 0, timerActive := true }

/-- Delivering a sequence of timer-tick events, each with its own current
time and random draws. -/
def runTicks (limit : Nat) : List (Nat × (Nat → Nat)) → ComponentState →
    ComponentState
  | [], s => s
  | (now, rand) :: rest, s => runTicks limit rest (tick limit now rand s)

/-- The states one component instance can be in while its `limit` prop stays
fixed: mounted, then any interleaving of timer ticks, cancellations and
loading restarts. -/
inductive Reachable (limit : Nat) : ComponentState → Prop where
  | init : ∀ isLoading now rand,
      Reachable limit (mountState isLoading limit now rand)
  | step : ∀ s now rand, Reachable limit s →
      Reachable limit (tick limit now rand s)
  | stop : ∀ s, Reachable limit s → Reachable limit (cancel s)
  | resume : ∀ s, Reachable limit s → Reachable limit (restart s)

/-- What the value row of the tooltip renders: a string produced by the
caller-supplied formatter, or the raw number interpolated directly into the
JSX (source lines 294-296). -/
inductive ValueContent where
  | str : String → ValueContent
  | num : ℚ → ValueContent
deriving DecidableEq

/-- Model of `Date.prototype.toLocaleDateString` / `toString`: an abstract
deterministic rendering of a timestamp. -/
def formatDate (t : Nat) : String := toString t

/-- One entry of the recharts tooltip `payload` array: `value` is
`payload[i].value`, `timestamp` flattens the optional chain
`payload[i]?.payload?.timestamp` (source lines 276, 295). -/
structure PayloadEntry where
  value : ℚ
  timestamp : Option Nat
deriving DecidableEq

/-- What `CustomToolTip` renders when it renders anything: an optional date
row, the value label, and the value content. -/
structure RenderedTooltip where
  dateRow : Option String
  valueLabel : String
  valueContent : ValueContent
deriving DecidableEq

/-- Source lines 251-304.  `CustomToolTip` renders `null` unless
`active && payload && payload.length`; otherwise it renders the date row only
when `payload[0]?.payload?.timestamp` is present, and the value row as
`valueFormatter ? valueFormatter(payload[0].value) : payload[0].value`. -/
def customToolTip (active : Bool) (payload : Option (List PayloadEntry))
    (valueLabel : String) (valueFormatter : Option (ℚ → String)) :
    Option RenderedTooltip :=
  match active, payload with
  | true, some (e :: _) =>
    some { dateRow := e.timestamp.map formatDate
           valueLabel := valueLabel
           valueContent :=
             match valueFormatter with
             | some f => ValueContent.str (f e.value)
             | none => ValueContent.num e.value }
  | _, _ => none

/-- Source lines 195-202, the `startEndOnly` branch of the X-axis `ticks`
prop: it evaluates `data[0]["timestamp"]?.toString()` and
`data[data.length - 1]["timestamp"]?.toString()`.  On an empty `data`,
`data[0]` is `undefined` and the `["timestamp"]` access throws a
`TypeError`; the thrown case is modelled as `none`. -/
def startEndTicks : List Value → Option (List String)
  | [] => none
  | e :: rest =>
    some [formatDate e.timestamp, formatDate (List.getLastD rest e).timestamp]

end Dashboard

namespace Dashboard

/-! ## Helper lemmas -/

/-- `generateFakeData` always returns exactly `elements` samples. -/
theorem generateFakeData_length (iteration elements now : Nat)
    (rand : Nat → Nat) :
    (generateFakeData iteration elements now rand).length = elements := by
  simp [generateFakeData]

/-- A tick event delivered to a state whose interval has been cleared does
nothing. -/
theorem tick_inactive (limit now : Nat) (rand : Nat → Nat)
    (s : ComponentState) (h : s.timerActive = false) :
    tick limit now rand s = s := by
  simp [tick, h]

/-- No sequence of tick events changes a state whose interval has been
cleared. -/
theorem runTicks_inactive (limit : Nat) (events : List (Nat × (Nat → Nat)))
    (s : ComponentState) (h : s.timerActive = false) :
    runTicks limit events s = s := by
  induction events with
  | nil => rfl
  | cons ev rest ih =>
    obtain ⟨now, rand⟩ := ev
    rw [runTicks, tick_inactive limit now rand s h, ih]

end Dashboard

namespace Dashboard

/-! ## Claim theorems -/

/-- C1: whenever `isLoading` is true or the real result array is absent, the
data selector returns the placeholder series; and in every reachable
component state the placeholder held in `loadingStateData` has exactly
`limit` elements, whether or not real data is present. -/
theorem selectData_loading_returns_placeholder_sized :
    (∀ (loadingStateData : List Value) (result : Option (List Value))
       (limit : Nat) (reverse : Bool),
       selectData true loadingStateData result limit reverse =
         loadingStateData) ∧
    (∀ (loadingStateData : List Value) (limit : Nat) (reverse : Bool),
       selectData false loadingStateData none limit reverse =
         loadingStateData) ∧
    (∀ (limit : Nat) (s : ComponentState), Reachable limit s →
       s.loadingStateData.length = limit) := by
  refine ⟨fun _ _ _ _ => rfl, fun _ _ _ => rfl, fun limit s h => ?_⟩
  induction h with
  | init isLoading now rand => exact generateFakeData_length 0 limit now rand
  | step s now rand _ ih =>
    by_cases hA : s.timerActive
    · simp [tick, hA, generateFakeData_length]
    · simp [tick, hA, ih]
  | stop s _ ih => exact ih
  | resume s _ ih => exact ih

/-- Witness for C1 at concrete inputs: the loading selector returns the
placeholder, and a freshly mounted state with `limit = 3` holds a 3-element
placeholder. -/
theorem selectData_loading_returns_placeholder_sized_witness :
    selectData true [⟨0, 1⟩] (some []) 5 false = [⟨0, 1⟩] ∧
    (mountState true 3 0 (fun _ => 0)).loadingStateData.length = 3 :=
  ⟨selectData_loading_returns_placeholder_sized.1 [⟨0, 1⟩] (some []) 5 false,
   selectData_loading_returns_placeholder_sized.2.2 3 _
     (Reachable.init true 0 (fun _ => 0))⟩

/-- C2: once the interval is cancelled (`clearInterval`, run when loading
ends or the component is torn down), no sequence of later timer ticks changes
the component state: placeholder regeneration has stopped for good. -/
theorem runTicks_after_cancel_unchanged (limit : Nat) (s : ComponentState)
    (events : List (Nat × (Nat → Nat))) :
    runTicks limit events (cancel s) = cancel s :=
  runTicks_inactive limit events (cancel s) rfl

/-- C3: with `isLoading = false` and real data present, the selection has
length `min limit L` where `L` is the length of the real series. -/
theorem selectData_loaded_length_min (loadingStateData real : List Value)
    (limit : Nat) (reverse : Bool) :
    (selectData false loadingStateData (some real) limit reverse).length =
      min limit real.length := by
  cases reverse <;> simp [selectData]

/-- C4: for the same loaded inputs, selecting with `reverse = true` is the
exact reverse of selecting with `reverse = false`; the non-reversed selection
is precisely the `limit`-prefix of the real series (a sliced copy — the
original series, being a prefix of itself extended, is left untouched by the
pure slice and reverse). -/
theorem selectData_reverse_relation (loadingStateData real : List Value)
    (limit : Nat) :
    selectData false loadingStateData (some real) limit true =
      (selectData false loadingStateData (some real) limit false).reverse ∧
    selectData false loadingStateData (some real) limit false =
      real.take limit ∧
    real.take limit <+: real := by
  exact ⟨rfl, rfl, List.take_prefix limit real⟩

end Dashboard

namespace Dashboard

/-- C5 counterexample: a real series of length 1 with `limit = 2` (fewer
elements than `limit`, loaded, present) selects to the whole one-element
series, not to the empty sequence the claim demands. -/
theorem selectData_short_series_not_empty_cex :
    selectData false [] (some [⟨0, 1⟩]) 2 false = [⟨0, 1⟩] ∧
    ([⟨0, 1⟩] : List Value) ≠ [] := by
  exact ⟨rfl, by decide⟩

/-- C5 amended: the selector is total (no exceptions by construction), and
when the real series has strictly fewer than `limit` elements it returns the
entire series (reversed when requested) — empty only when the real series
itself is empty. -/
theorem selectData_short_series_whole (loadingStateData real : List Value)
    (limit : Nat) (reverse : Bool) (h : real.length < limit) :
    selectData false loadingStateData (some real) limit reverse =
      if reverse then real.reverse else real := by
  cases reverse <;>
    simp [selectData, List.take_of_length_le (Nat.le_of_lt h)]

/-- Witness for the amended C5 at a concrete input: a one-element series with
`limit = 2` is returned whole. -/
theorem selectData_short_series_whole_witness :
    selectData false [] (some [⟨0, 1⟩]) 2 true = [⟨0, 1⟩] := by
  have h := selectData_short_series_whole [] [⟨0, 1⟩] 2 true (by decide)
  simpa using h

/-- C6: `generateFakeData iteration count` returns exactly `count` samples;
each carries the current timestamp, and each sample's value is the randomized
magnitude `randVal` times a multiplier that is 3 when the sample index has
the same parity as `iteration` and 1 otherwise, so the two shapes swap on
every tick. -/
theorem generateFakeData_shape (iteration count now : Nat)
    (rand : Nat → Nat) :
    (generateFakeData iteration count now rand).length = count ∧
    ∀ i, i < count →
      (generateFakeData iteration count now rand)[i]? =
        some ⟨now, randVal rand i *
          (if i % 2 = iteration % 2 then 3 else 1)⟩ := by
  refine ⟨generateFakeData_length iteration count now rand, fun i hi => ?_⟩
  simp only [generateFakeData, List.getElem?_map, List.getElem?_range, hi,
    if_pos, Option.map_some]
  rcases Nat.mod_two_eq_zero_or_one iteration with h1 | h1 <;>
    rcases Nat.mod_two_eq_zero_or_one i with h2 | h2 <;>
      simp [h1, h2]

/-- Witness for C6 at a concrete input: iteration 1, count 2; the sample at
odd index 1 (same parity as the iteration) gets multiplier 3. -/
theorem generateFakeData_shape_witness :
    (generateFakeData 1 2 5 (fun i => i)).length = 2 ∧
    (generateFakeData 1 2 5 (fun i => i))[1]? =
      some ⟨5, randVal (fun i => i) 1 * 3⟩ := by
  obtain ⟨h1, h2⟩ := generateFakeData_shape 1 2 5 (fun i => i)
  exact ⟨h1, by simpa using h2 1 (by decide)⟩

end Dashboard

namespace Dashboard

/-- C7 counterexample: two calls of `generateFakeData` with the same
`iteration = 0` and `count = 1` but different ambient `Math.random` draws
(0 versus 1) return different series — the generator is not a pure function
of `iteration` and `count` alone. -/
theorem generateFakeData_not_pure_cex :
    generateFakeData 0 1 0 (fun _ => 0) ≠ generateFakeData 0 1 0 (fun _ => 1) := by
  simp [generateFakeData, randVal, List.range_succ]

/-- C7 amended: the generator is deterministic in its explicit environment —
two calls with the same `iteration`, `count`, current time, and random draws
agreeing (mod 10) below `count` return equal series (same timestamps and
same values). -/
theorem generateFakeData_deterministic_in_env (iteration count now : Nat)
    (r1 r2 : Nat → Nat) (h : ∀ i, i < count → r1 i % 10 = r2 i % 10) :
    generateFakeData iteration count now r1 =
      generateFakeData iteration count now r2 := by
  unfold generateFakeData
  refine List.map_congr_left fun i hi => ?_
  have hr := h i (List.mem_range.mp hi)
  simp [randVal, hr]

/-- Witness for the amended C7 at concrete inputs: draws 3 and 13 agree
mod 10, so the two runs coincide. -/
theorem generateFakeData_deterministic_in_env_witness :
    generateFakeData 0 1 0 (fun _ => 3) = generateFakeData 0 1 0 (fun _ => 13) :=
  generateFakeData_deterministic_in_env 0 1 0 (fun _ => 3) (fun _ => 13)
    (by decide)

/-- C8: the tooltip renders nothing when `active` is false, when the payload
array is absent, and when it is empty; and on an active non-empty payload
whose first point lacks a timestamp, the date row is omitted while the value
row is still rendered. -/
theorem customToolTip_inactive_empty_missing_timestamp :
    (∀ (payload : Option (List PayloadEntry)) (valueLabel : String)
       (f : Option (ℚ → String)),
       customToolTip false payload valueLabel f = none) ∧
    (∀ (valueLabel : String) (f : Option (ℚ → String)),
       customToolTip true none valueLabel f = none) ∧
    (∀ (valueLabel : String) (f : Option (ℚ → String)),
       customToolTip true (some []) valueLabel f = none) ∧
    (∀ (v : ℚ) (rest : List PayloadEntry) (valueLabel : String)
       (f : Option (ℚ → String)),
       customToolTip true (some (⟨v, none⟩ :: rest)) valueLabel f =
         some ⟨none, valueLabel,
           match f with
           | some g => ValueContent.str (g v)
           | none => ValueContent.num v⟩) := by
  refine ⟨fun payload _ _ => ?_, fun _ _ => rfl, fun _ _ => rfl,
    fun v rest vl f => ?_⟩
  · cases payload with
    | none => rfl
    | some l => cases l <;> rfl
  · cases f <;> rfl

/-- C9: on an active non-empty payload whose first point carries value `v`,
a supplied formatter `g` makes the rendered value text `g v`, and without a
formatter the raw number `v` itself is rendered. -/
theorem customToolTip_formatter_raw (v : ℚ) (ts : Option Nat)
    (rest : List PayloadEntry) (valueLabel : String) (g : ℚ → String) :
    customToolTip true (some (⟨v, ts⟩ :: rest)) valueLabel (some g) =
      some ⟨ts.map formatDate, valueLabel, ValueContent.str (g v)⟩ ∧
    customToolTip true (some (⟨v, ts⟩ :: rest)) valueLabel none =
      some ⟨ts.map formatDate, valueLabel, ValueContent.num v⟩ :=
  ⟨rfl, rfl⟩

/-- C10: the `startEndOnly` ticks computation reads the first and last
timestamp of the selected series with no emptiness guard: it fails (throws)
exactly on an empty series and succeeds on every non-empty one; and an empty
selected series is reachable — a loaded query whose result is the empty
array selects to `[]` for every limit. -/
theorem startEndTicks_needs_nonempty :
    startEndTicks [] = none ∧
    (∀ d : List Value, d ≠ [] → (startEndTicks d).isSome = true) ∧
    (∀ (e : Value) (rest : List Value),
       startEndTicks (e :: rest) =
         some [formatDate e.timestamp,
               formatDate (List.getLastD rest e).timestamp]) ∧
    (∀ (loadingStateData : List Value) (limit : Nat) (reverse : Bool),
       selectData false loadingStateData (some []) limit reverse = []) := by
  refine ⟨rfl, fun d hd => ?_, fun e rest => rfl, fun pl limit rev => ?_⟩
  · cases d with
    | nil => exact absurd rfl hd
    | cons e rest => rfl
  · cases rev <;> simp [selectData]

/-- Witness for C10 at a concrete input: the ticks computation succeeds on a
one-element series. -/
theorem startEndTicks_needs_nonempty_witness :
    (startEndTicks [⟨0, 1⟩]).isSome = true :=
  startEndTicks_needs_nonempty.2.1 [⟨0, 1⟩] (by decide)

end Dashboard
